import Mathlib

/-!
Shallow embedding of the identity and tenancy core of the facilitator CRM
backend: the OTP store and verification flow (`models/database.py`), the
five-step onboarding state machine (`models/database.py`,
`routes/phone_auth_routes.py`), the token guards
(`middleware/auth_required.py`) and subdomain tenant resolution
(`middleware/subdomain_middleware.py`).

Database rows become Lean structures, the store is a `Db` record of row
lists, and each repository method becomes a pure function `Db → Db × α`.
Time is an abstract `Nat` tick (minutes for OTP expiry).  Sessions are
`sessionmaker(autocommit=False, autoflush=False)`: mutations made inside a
`with ... as session:` block are persisted only by an explicit
`session.commit()`; when the block exits without one, closing the session
rolls the pending changes back.  The embedding reflects that by returning
the unchanged store on paths that never commit.
-/

namespace FacilitatorCRM

/-! ## Data model (`models/database.py` ORM classes) -/

/-- Row of `phone_otps` (class `PhoneOTP`). -/
structure PhoneOTP where
  id : Nat
  phone_number : String
  otp : String
  otp_type : String
  expires_at : Nat
  is_verified : Bool
  deriving DecidableEq, Repr

/-- Row of `practitioners` (class `Practitioner`); only the columns the
identity/tenancy core reads or writes. -/
structure Practitioner where
  id : Nat
  phone_number : String
  name : Option String
  email : Option String
  onboarding_step : Nat
  is_active : Bool
  crm_onboarding_completed : Bool
  crm_first_login_date : Option Nat
  crm_onboarding_completed_date : Option Nat
  subdomain : Option String
  website_published : Bool
  deriving DecidableEq, Repr

/-- Row of `facilitator_basic_info` (step 1). -/
structure FacilitatorBasicInfo where
  practitioner_id : Nat
  first_name : String
  last_name : String
  email : String
  location : String
  deriving DecidableEq, Repr

/-- Row of `facilitator_visual_profile` (step 2). -/
structure FacilitatorVisualProfile where
  practitioner_id : Nat
  banner_urls : List String
  profile_url : Option String
  deriving DecidableEq, Repr

/-- Row of `facilitator_professional_details` (step 3). -/
structure FacilitatorProfessionalDetails where
  practitioner_id : Nat
  languages : List String
  teaching_styles : List String
  specializations : List String
  deriving DecidableEq, Repr

/-- Row of `facilitator_bio_about` (step 4). -/
structure FacilitatorBioAbout where
  practitioner_id : Nat
  short_bio : Option String
  detailed_intro : Option String
  deriving DecidableEq, Repr

/-- Row of `facilitator_work_experience` (step 5). -/
structure FacilitatorWorkExperience where
  practitioner_id : Nat
  job_title : Option String
  company : Option String
  duration : Option String
  description : Option String
  deriving DecidableEq, Repr

/-- Row of `facilitator_certifications` (step 5). -/
structure FacilitatorCertification where
  practitioner_id : Nat
  certificate_name : Option String
  issuing_organization : Option String
  date_received : Option String
  credential_id : Option String
  deriving DecidableEq, Repr

/-- The durable store backing `FacilitatorRepository`: one list per table,
plus the autoincrement counters. -/
structure Db where
  practitioners : List Practitioner
  basic_infos : List FacilitatorBasicInfo
  visual_profiles : List FacilitatorVisualProfile
  professional_detail_rows : List FacilitatorProfessionalDetails
  bio_abouts : List FacilitatorBioAbout
  work_experiences : List FacilitatorWorkExperience
  certifications : List FacilitatorCertification
  phone_otps : List PhoneOTP
  next_practitioner_id : Nat
  next_otp_id : Nat
  deriving DecidableEq, Repr

/-- A store with no rows at all. -/
def emptyDb : Db :=
  { practitioners := [], basic_infos := [], visual_profiles := []
    professional_detail_rows := [], bio_abouts := [], work_experiences := []
    certifications := [], phone_otps := [], next_practitioner_id := 1, next_otp_id := 1 }

/-- `session.query(...).filter(...).first()` followed by a mutation of the
returned row: rewrite the first element satisfying `p` with `f`, leave the
rest untouched. -/
def updateFirst (p : α → Bool) (f : α → α) : List α → List α
  | [] => []
  | x :: xs => if p x then f x :: xs else x :: updateFirst p f xs

/-! ## OTP store (`FacilitatorRepository.create_otp` /
`verify_otp_and_get_user_status`) -/

/-- `timedelta(minutes=10)` in abstract ticks. -/
def otpTtl : Nat := 10

/-- The filter of `verify_otp_and_get_user_status`: phone and code match,
`is_verified == False`, `expires_at > datetime.now()`. -/
def otpMatches (phone otp : String) (now : Nat) (r : PhoneOTP) : Bool :=
  r.phone_number == phone && r.otp == otp && !r.is_verified && now < r.expires_at

/-- Set the `is_verified` flag of a row. -/
def markVerified (r : PhoneOTP) : PhoneOTP := { r with is_verified := true }

/-- The elementwise effect of the bulk `.update` in `create_otp`: a row of
the phone that is still unverified gets consumed. -/
def consumeIfUnverified (phone : String) (r : PhoneOTP) : PhoneOTP :=
  if r.phone_number == phone && !r.is_verified then markVerified r else r

/-- First half of `create_otp`: `.filter(phone, is_verified == False)
.update(is_verified = True)` — marks every prior unverified code for the
phone as consumed. -/
def invalidate_prior_otps (phone : String) (db : Db) : Db :=
  { db with phone_otps := db.phone_otps.map (consumeIfUnverified phone) }

/-- The row `create_otp` inserts. -/
def newOtpRow (db : Db) (phone otp : String) (now : Nat) : PhoneOTP :=
  { id := db.next_otp_id, phone_number := phone, otp := otp
    otp_type := "verification", expires_at := now + otpTtl, is_verified := false }

/-- Second half of `create_otp`: `session.add(new_otp)`. -/
def insert_new_otp (phone otp : String) (now : Nat) (db : Db) : Db :=
  { db with
      phone_otps := db.phone_otps ++ [newOtpRow db phone otp now]
      next_otp_id := db.next_otp_id + 1 }

/-- `FacilitatorRepository.create_otp`: invalidate prior unverified codes,
insert the new one, single `session.commit()`; returns the new row id. -/
def create_otp (db : Db) (phone otp : String) (now : Nat) : Db × Nat :=
  (insert_new_otp phone otp now (invalidate_prior_otps phone db), db.next_otp_id)

/-- The dict returned by `verify_otp_and_get_user_status`. -/
inductive VerifyResult where
  | failure (error : String)
  | success (practitioner_id : Nat) (is_new_user : Bool) (needs_onboarding : Bool)
      (onboarding_step : Nat) (crm_onboarding_completed : Bool)
  deriving DecidableEq, Repr

/-- `session.query(Practitioner).filter(phone_number == phone).first()`. -/
def findPractByPhone (db : Db) (phone : String) : Option Practitioner :=
  db.practitioners.find? fun p => p.phone_number == phone

/-- `session.query(Practitioner).filter(id == pid).first()`. -/
def findPractById (db : Db) (pid : Nat) : Option Practitioner :=
  db.practitioners.find? fun p => p.id == pid

/-- The practitioner row created for a truly new user. -/
def newPractitionerRow (db : Db) (phone : String) (now : Nat) : Practitioner :=
  { id := db.next_practitioner_id, phone_number := phone, name := none, email := none
    onboarding_step := 0, is_active := true, crm_onboarding_completed := false
    crm_first_login_date := some now, crm_onboarding_completed_date := none
    subdomain := none, website_published := false }

/-- `FacilitatorRepository.verify_otp_and_get_user_status`.  The
`is_verified = True` assignment is only a pending session change: the
new-user branch and the unset-first-login branch each reach a
`session.commit()`, but the branch for an existing practitioner whose
`crm_first_login_date` is already set returns without committing, so
closing the session rolls the mark back and the store is unchanged. -/
def verify_otp_and_get_user_status (db : Db) (phone otp : String) (now : Nat) :
    Db × VerifyResult :=
  match db.phone_otps.find? (otpMatches phone otp now) with
  | none => (db, .failure "Invalid or expired OTP")
  | some _ =>
    let markedOtps :=
      updateFirst (otpMatches phone otp now) markVerified db.phone_otps
    let pending : Db := { db with phone_otps := markedOtps }
    match findPractByPhone pending phone with
    | none =>
      let newRow := newPractitionerRow pending phone now
      let committed : Db :=
        { pending with
            practitioners := pending.practitioners ++ [newRow]
            next_practitioner_id := pending.next_practitioner_id + 1 }
      (committed, .success pending.next_practitioner_id true true 0 false)
    | some p =>
      if p.crm_first_login_date = none then
        let stamped :=
          updateFirst (fun q => q.id == p.id)
            (fun q => { q with crm_first_login_date := some now })
            pending.practitioners
        let committed : Db := { pending with practitioners := stamped }
        (committed, .success p.id false (!p.crm_onboarding_completed)
          p.onboarding_step p.crm_onboarding_completed)
      else
        (db, .success p.id false (!p.crm_onboarding_completed)
          p.onboarding_step p.crm_onboarding_completed)

/-- The unverified codes currently stored for a phone number. -/
def unverifiedOtps (db : Db) (phone : String) : List PhoneOTP :=
  db.phone_otps.filter fun r => r.phone_number == phone && !r.is_verified

/-! ## Onboarding step saves (`FacilitatorRepository.save_*`)

Each route validates/assembles a fixed dict before calling the repository,
so the payloads are structures holding exactly the keys the route passes. -/

/-- The dict `onboarding_step1_basic_info` builds (all four keys required). -/
structure BasicInfoPayload where
  first_name : String
  last_name : String
  email : String
  location : String
  deriving DecidableEq, Repr

/-- The dict `onboarding_step2_visual_profile` builds. -/
structure VisualProfilePayload where
  banner_urls : List String
  profile_url : Option String
  deriving DecidableEq, Repr

/-- The dict `onboarding_step3_professional_details` builds. -/
structure ProfessionalDetailsPayload where
  languages : List String
  teaching_styles : List String
  specializations : List String
  deriving DecidableEq, Repr

/-- The dict `onboarding_step4_bio_about` builds. -/
structure BioAboutPayload where
  short_bio : Option String
  detailed_intro : Option String
  deriving DecidableEq, Repr

/-- An entry of the `work_experiences` list passed to step 5. -/
structure WorkExperiencePayload where
  job_title : Option String
  company : Option String
  duration : Option String
  description : Option String
  deriving DecidableEq, Repr

/-- An entry of the `certifications` list passed to step 5. -/
structure CertificationPayload where
  certificate_name : Option String
  issuing_organization : Option String
  date_received : Option String
  credential_id : Option String
  deriving DecidableEq, Repr

/-- First write of `save_basic_info`: update the existing
`FacilitatorBasicInfo` row or insert a new one. -/
def upsert_basic_info (pid : Nat) (d : BasicInfoPayload) (db : Db) : Db :=
  let rows :=
    if db.basic_infos.any (fun r => r.practitioner_id == pid) then
      updateFirst (fun r => r.practitioner_id == pid)
        (fun r => { r with
            first_name := d.first_name, last_name := d.last_name
            email := d.email, location := d.location })
        db.basic_infos
    else
      db.basic_infos ++
        [{ practitioner_id := pid, first_name := d.first_name, last_name := d.last_name
           email := d.email, location := d.location }]
  { db with basic_infos := rows }

/-- The practitioner-row mutation done by `save_basic_info`: copy
name/email and bump `onboarding_step` to 1 when it is below 1. -/
def bumpBasic (d : BasicInfoPayload) (p : Practitioner) : Practitioner :=
  { p with
      name := some (d.first_name ++ " " ++ d.last_name)
      email := some d.email
      onboarding_step := if p.onboarding_step < 1 then 1 else p.onboarding_step }

/-- The practitioner-row mutation done by the step 2–4 saves:
`if practitioner.onboarding_step < n: practitioner.onboarding_step = n`. -/
def bumpStep (n : Nat) (p : Practitioner) : Practitioner :=
  { p with onboarding_step := if p.onboarding_step < n then n else p.onboarding_step }

/-- The practitioner-row mutation done by
`save_experience_certifications`: `onboarding_step = 6`,
`crm_onboarding_completed = True`. -/
def completeOnboarding (now : Nat) (p : Practitioner) : Practitioner :=
  { p with
      onboarding_step := 6
      crm_onboarding_completed := true
      crm_onboarding_completed_date := some now }

/-- Second write of `save_basic_info`: copy name/email onto the
practitioner and bump `onboarding_step` to 1 when it is below 1. -/
def update_practitioner_basic (pid : Nat) (d : BasicInfoPayload) (db : Db) : Db :=
  { db with practitioners :=
      updateFirst (fun p => p.id == pid) (bumpBasic d) db.practitioners }

/-- `FacilitatorRepository.save_basic_info`: both writes, one
`session.commit()` at the end, returns `True`. -/
def save_basic_info (db : Db) (pid : Nat) (d : BasicInfoPayload) : Db × Bool :=
  (update_practitioner_basic pid d (upsert_basic_info pid d db), true)

/-- `FacilitatorRepository.save_visual_profile`: upsert the
`FacilitatorVisualProfile` row and bump `onboarding_step` to 2 when below 2. -/
def save_visual_profile (db : Db) (pid : Nat) (d : VisualProfilePayload) : Db × Bool :=
  let rows :=
    if db.visual_profiles.any (fun r => r.practitioner_id == pid) then
      updateFirst (fun r => r.practitioner_id == pid)
        (fun r => { r with banner_urls := d.banner_urls, profile_url := d.profile_url })
        db.visual_profiles
    else
      db.visual_profiles ++
        [{ practitioner_id := pid, banner_urls := d.banner_urls, profile_url := d.profile_url }]
  let practs := updateFirst (fun p => p.id == pid) (bumpStep 2) db.practitioners
  ({ db with visual_profiles := rows, practitioners := practs }, true)

/-- `FacilitatorRepository.save_professional_details`: upsert the row and
bump `onboarding_step` to 3 when below 3. -/
def save_professional_details (db : Db) (pid : Nat) (d : ProfessionalDetailsPayload) :
    Db × Bool :=
  let rows :=
    if db.professional_detail_rows.any (fun r => r.practitioner_id == pid) then
      updateFirst (fun r => r.practitioner_id == pid)
        (fun r => { r with
            languages := d.languages, teaching_styles := d.teaching_styles
            specializations := d.specializations })
        db.professional_detail_rows
    else
      db.professional_detail_rows ++
        [{ practitioner_id := pid, languages := d.languages
           teaching_styles := d.teaching_styles, specializations := d.specializations }]
  let practs := updateFirst (fun p => p.id == pid) (bumpStep 3) db.practitioners
  ({ db with professional_detail_rows := rows, practitioners := practs }, true)

/-- `FacilitatorRepository.save_bio_about`: upsert the row and bump
`onboarding_step` to 4 when below 4. -/
def save_bio_about (db : Db) (pid : Nat) (d : BioAboutPayload) : Db × Bool :=
  let rows :=
    if db.bio_abouts.any (fun r => r.practitioner_id == pid) then
      updateFirst (fun r => r.practitioner_id == pid)
        (fun r => { r with short_bio := d.short_bio, detailed_intro := d.detailed_intro })
        db.bio_abouts
    else
      db.bio_abouts ++
        [{ practitioner_id := pid, short_bio := d.short_bio, detailed_intro := d.detailed_intro }]
  let practs := updateFirst (fun p => p.id == pid) (bumpStep 4) db.practitioners
  ({ db with bio_abouts := rows, practitioners := practs }, true)

/-- `FacilitatorRepository.save_experience_certifications`: delete the
practitioner's experience and certification rows, insert the new ones, set
`onboarding_step = 6` and `crm_onboarding_completed = True`. -/
def save_experience_certifications (db : Db) (pid : Nat)
    (exps : List WorkExperiencePayload) (certs : List CertificationPayload)
    (now : Nat) : Db × Bool :=
  let keptExp := db.work_experiences.filter fun r => !(r.practitioner_id == pid)
  let newExp : List FacilitatorWorkExperience := exps.map fun e =>
    { practitioner_id := pid, job_title := e.job_title, company := e.company
      duration := e.duration, description := e.description }
  let keptCert := db.certifications.filter fun r => !(r.practitioner_id == pid)
  let newCert : List FacilitatorCertification := certs.map fun c =>
    { practitioner_id := pid, certificate_name := c.certificate_name
      issuing_organization := c.issuing_organization
      date_received := c.date_received, credential_id := c.credential_id }
  let practs := updateFirst (fun p => p.id == pid) (completeOnboarding now) db.practitioners
  ({ db with
      work_experiences := keptExp ++ newExp
      certifications := keptCert ++ newCert
      practitioners := practs }, true)

/-! ## Token codec and endpoint guards (`middleware/auth_required.py`)

A decoded JWT payload is a claim set; `payload.get(key)` is the `Option`
projection (absent key gives `none`, and Python truthiness of the result is
`Option.getD false`).  Signature checking lives in the external `jwt`
library, so guards are modelled on the decode outcome: no token at all, a
token `decode_token` rejects, or a decoded claim set. -/

/-- The claim set of a decoded JWT. -/
structure JwtPayload where
  type : Option String
  otp_verified : Option Bool
  is_authenticated : Option Bool
  temp_phone_number : Option String
  temp_facilitator_id : Option Nat
  facilitator_id : Option Nat
  phone_number : Option String
  exp : Nat
  iat : Nat
  deriving DecidableEq, Repr

/-- `generate_temp_token`: onboarding-variant claims, 2 hour expiry. -/
def generate_temp_token (phone : String) (fid : Nat) (now : Nat) : JwtPayload :=
  { type := some "onboarding", otp_verified := some true, is_authenticated := none
    temp_phone_number := some phone, temp_facilitator_id := some fid
    facilitator_id := none, phone_number := none
    exp := now + 2 * 3600, iat := now }

/-- `generate_auth_token`: auth-variant claims, 7 day expiry. -/
def generate_auth_token (fid : Nat) (phone : String) (now : Nat) : JwtPayload :=
  { type := some "auth", otp_verified := none, is_authenticated := some true
    temp_phone_number := none, temp_facilitator_id := none
    facilitator_id := some fid, phone_number := some phone
    exp := now + 7 * 24 * 3600, iat := now }

/-- What the guard receives: no Authorization header, a token
`decode_token` returns `None` for (bad signature or expired), or the
decoded claim set. -/
inductive TokenInput where
  | missing
  | undecodable
  | decoded (payload : JwtPayload)
  deriving DecidableEq, Repr

/-- Result of running a guard: an early JSON rejection, or the request
handler is invoked with the context the guard attached. -/
inductive GuardOutcome where
  | reject (status : Nat) (error : String) (message : String)
  | proceedAuth (facilitator_id : Option Nat) (phone_number : Option String)
  | proceedOnboarding (temp_facilitator_id : Option Nat) (temp_phone_number : Option String)
  deriving DecidableEq, Repr

/-- Decorator `token_required`: demands a decodable token with
`type == 'auth'` and truthy `is_authenticated`. -/
def token_required : TokenInput → GuardOutcome
  | .missing => .reject 401 "Authentication required" "Please provide a valid token"
  | .undecodable => .reject 401 "Invalid token" "Please login again"
  | .decoded p =>
    if p.type != some "auth" || !(p.is_authenticated.getD false) then
      .reject 401 "Invalid token type" "Please login again"
    else
      .proceedAuth p.facilitator_id p.phone_number

/-- Decorator `onboarding_token_required`: demands a decodable token with
`type == 'onboarding'` and truthy `otp_verified`. -/
def onboarding_token_required : TokenInput → GuardOutcome
  | .missing => .reject 401 "Authentication required" "Please verify OTP first"
  | .undecodable => .reject 401 "Invalid token" "Please verify OTP again"
  | .decoded p =>
    if p.type != some "onboarding" || !(p.otp_verified.getD false) then
      .reject 401 "Invalid token type" "Please verify OTP first"
    else
      .proceedOnboarding p.temp_facilitator_id p.temp_phone_number

/-! ## Route handlers (`routes/phone_auth_routes.py`)

Handlers are modelled after the guard has admitted the request and the
request body has been parsed: the guard-attached `temp_facilitator_id` /
`temp_phone_number` and the validated payload are arguments. -/

/-- Python's `str.isdigit` restricted to ASCII: nonempty and all digits. -/
def pyIsDigit (s : String) : Bool :=
  !s.data.isEmpty && s.data.all Char.isDigit

/-- The `verify-otp` format precheck: `len(otp) == 6 and otp.isdigit()`. -/
def otp_format_ok (otp : String) : Bool :=
  otp.data.length == 6 && pyIsDigit otp

/-- `validate_phone_number`: the regex `^\+?[1-9]\d\x7b1,14\x7d$`. -/
def validate_phone_number (s : String) : Bool :=
  let core := match s.data with
    | '+' :: rest => rest
    | l => l
  match core with
  | [] => false
  | c :: rest =>
    49 ≤ c.toNat && c.toNat ≤ 57 && 1 ≤ rest.length && rest.length ≤ 14 &&
      rest.all Char.isDigit

/-- `get_facilitator_onboarding_status` as the step routes consume it:
`current_step` is the practitioner's `onboarding_step`, or an error dict
when the practitioner does not exist. -/
def get_onboarding_current_step (db : Db) (pid : Nat) : Option Nat :=
  (findPractById db pid).map fun p => p.onboarding_step

/-- JSON responses of the onboarding step routes. -/
inductive StepResponse where
  | err (status : Nat) (error : String)
  | ok (current_step : Nat) (next_step : Nat) (total_steps : Nat)
  | okComplete (current_step : Nat) (total_steps : Nat) (token : JwtPayload)
      (token_type : String) (redirect_to : String)
  deriving DecidableEq, Repr

/-- Route `onboarding/step1-basic-info`: no sequence precondition — saves
immediately. -/
def onboarding_step1_basic_info (db : Db) (fid : Nat) (d : BasicInfoPayload) :
    Db × StepResponse :=
  let r := save_basic_info db fid d
  if r.2 then (r.1, .ok 1 2 5) else (r.1, .err 500 "Failed to save basic information")

/-- Route `onboarding/step2-visual-profile`: requires `current_step ≥ 1`. -/
def onboarding_step2_visual_profile (db : Db) (fid : Nat) (d : VisualProfilePayload) :
    Db × StepResponse :=
  match get_onboarding_current_step db fid with
  | none => (db, .err 400 "Practitioner not found")
  | some current_step =>
    if current_step < 1 then (db, .err 400 "Please complete previous steps first")
    else
      let r := save_visual_profile db fid d
      if r.2 then (r.1, .ok 2 3 5) else (r.1, .err 500 "Failed to save visual profile")

/-- Route `onboarding/step3-professional-details`: requires
`current_step ≥ 2`. -/
def onboarding_step3_professional_details (db : Db) (fid : Nat)
    (d : ProfessionalDetailsPayload) : Db × StepResponse :=
  match get_onboarding_current_step db fid with
  | none => (db, .err 400 "Practitioner not found")
  | some current_step =>
    if current_step < 2 then (db, .err 400 "Please complete previous steps first")
    else
      let r := save_professional_details db fid d
      if r.2 then (r.1, .ok 3 4 5) else (r.1, .err 500 "Failed to save professional details")

/-- Route `onboarding/step4-bio-about`: requires `current_step ≥ 3`. -/
def onboarding_step4_bio_about (db : Db) (fid : Nat) (d : BioAboutPayload) :
    Db × StepResponse :=
  match get_onboarding_current_step db fid with
  | none => (db, .err 400 "Practitioner not found")
  | some current_step =>
    if current_step < 3 then (db, .err 400 "Please complete previous steps first")
    else
      let r := save_bio_about db fid d
      if r.2 then (r.1, .ok 4 5 5) else (r.1, .err 500 "Failed to save bio and about information")

/-- Route `onboarding/step5-experience-certifications`: requires
`current_step ≥ 4`; on success mints an auth token and redirects to the
dashboard. -/
def onboarding_step5_experience_certifications (db : Db) (fid : Nat) (phone : String)
    (exps : List WorkExperiencePayload) (certs : List CertificationPayload)
    (now : Nat) : Db × StepResponse :=
  match get_onboarding_current_step db fid with
  | none => (db, .err 400 "Practitioner not found")
  | some current_step =>
    if current_step < 4 then (db, .err 400 "Please complete previous steps first")
    else
      let r := save_experience_certifications db fid exps certs now
      if r.2 then
        (r.1, .okComplete 5 5 (generate_auth_token fid phone now) "auth" "dashboard")
      else
        (r.1, .err 500 "Failed to save experience and certifications")

/-- JSON responses of the `verify-otp` route. -/
inductive VerifyOtpResponse where
  | err (status : Nat) (error : String)
  | onboardingNew (current_step : Nat) (token : JwtPayload)
      (token_type : String) (redirect_to : String)
  | onboardingResume (current_step : Nat) (token : JwtPayload)
      (token_type : String) (redirect_to : String)
  | dashboard (token : JwtPayload) (token_type : String) (redirect_to : String)
  deriving DecidableEq, Repr

/-- Route `verify-otp`: input validation, OTP verification, then the
three-way new / resuming / completed branch. -/
def verify_otp_route (db : Db) (phone otp : String) (now : Nat) :
    Db × VerifyOtpResponse :=
  if !validate_phone_number phone then
    (db, .err 400 "Invalid phone number format")
  else if !otp_format_ok otp then
    (db, .err 400 "OTP must be 6 digits")
  else
    let r := verify_otp_and_get_user_status db phone otp now
    match r.2 with
    | .failure e => (r.1, .err 400 e)
    | .success pid isNew needs step _completed =>
      if isNew then
        (r.1, .onboardingNew 1 (generate_temp_token phone pid now) "onboarding" "onboarding")
      else if needs then
        (r.1, .onboardingResume (step + 1) (generate_temp_token phone pid now)
          "onboarding" "onboarding")
      else
        (r.1, .dashboard (generate_auth_token pid phone now) "auth" "dashboard")

/-- Big-endian decimal digit characters of a positive number; the first
argument is recursion fuel (any fuel at least the number works). -/
def natChars : Nat → Nat → List Char
  | _, 0 => []
  | 0, _ + 1 => []
  | fuel + 1, m + 1 =>
    natChars fuel ((m + 1) / 10) ++ [Char.ofNat ((m + 1) % 10 + 48)]

/-- Python's `str` on a nonnegative integer: decimal rendering. -/
def pyStrNat (n : Nat) : String :=
  if n = 0 then "0" else String.mk (natChars n n)

/-- `generate_otp` is `str(random.randint(100000, 999999))`; `r` stands for
the outcome of the random draw. -/
def generate_otp (r : Nat) : String := pyStrNat r

/-! ## Tenant resolution (`middleware/subdomain_middleware.py`)

String scanning is done on `List Char` with structural recursion so that
every function evaluates inside the kernel; `pyReplace` has the semantics
of Python's `str.replace` (all non-overlapping occurrences, left to
right). -/

/-- `host.split(':')[0]`: everything before the first colon. -/
def stripPort : List Char → List Char
  | [] => []
  | c :: cs => if c == ':' then [] else c :: stripPort cs

/-- `if ':' in host: host.split(':')[0] else host`. -/
def hostWithoutPort (host : String) : List Char :=
  if host.data.contains ':' then stripPort host.data else host.data

/-- Replace every non-overlapping occurrence of `old` (nonempty) by `new`,
scanning left to right; `fuel` bounds the recursion (the input length
suffices). -/
def replaceAllAux (old new : List Char) : Nat → List Char → List Char
  | _, [] => []
  | 0, s => s
  | fuel + 1, c :: cs =>
    if old.isPrefixOf (c :: cs) && !old.isEmpty then
      new ++ replaceAllAux old new fuel (cs.drop (old.length - 1))
    else
      c :: replaceAllAux old new fuel cs

/-- Python's `s.replace(old, new)` for nonempty `old`. -/
def pyReplace (s old new : String) : String :=
  String.mk (replaceAllAux old.data new.data s.data.length s.data)

/-- `s.endswith(t)`. -/
def endsWithChars (s t : List Char) : Bool :=
  t.reverse.isPrefixOf s.reverse

/-- The body of `get_subdomain_from_host` after port stripping: the
production branch checks `.ahoum.com` and ignores `www`, `api`,
`facilitatorCRM`; the development branch checks `.localhost` and ignores
`www`, `api`, `admin`. -/
def subdomainOfStripped (h : List Char) : Option String :=
  if endsWithChars h ".ahoum.com".data then
    let subdomain := pyReplace (String.mk h) ".ahoum.com" ""
    if !subdomain.data.isEmpty &&
        !(["www", "api", "facilitatorCRM"].contains subdomain) then
      some subdomain
    else none
  else if endsWithChars h ".localhost".data then
    let subdomain := pyReplace (String.mk h) ".localhost" ""
    if !subdomain.data.isEmpty && !(["www", "api", "admin"].contains subdomain) then
      some subdomain
    else none
  else none

/-- `get_subdomain_from_host`: strip the port, then extract the label. -/
def get_subdomain_from_host (host : String) : Option String :=
  subdomainOfStripped (hostWithoutPort host)

/-- `FacilitatorRepository.get_practitioner_by_subdomain`: only rows with
`website_published == True` and `is_active == True` are visible. -/
def get_practitioner_by_subdomain (db : Db) (sub : String) : Option Practitioner :=
  db.practitioners.find? fun p =>
    p.subdomain == some sub && p.website_published && p.is_active

/-- An early JSON error response. -/
structure HttpError where
  status : Nat
  error : String
  message : String
  deriving DecidableEq, Repr

/-- The generic response `require_valid_subdomain` sends in every
no-tenant case. -/
def websiteNotFound : HttpError :=
  { status := 404, error := "Website not found"
    message := "This website is not published or does not exist" }

/-- Decorator `require_valid_subdomain`: 404 when no (truthy) subdomain
was resolved or no practitioner data was attached; otherwise the handler
runs. -/
def require_valid_subdomain (sub : Option String) (pract : Option Practitioner) :
    Option HttpError :=
  match sub with
  | none => some websiteNotFound
  | some s =>
    if s.data.isEmpty then some websiteNotFound
    else
      match pract with
      | none => some websiteNotFound
      | some _ => none

/-- The middleware pipeline a tenant-serving endpoint sees: resolve the
practitioner for a truthy subdomain (as `subdomain_context` /
`init_subdomain_middleware` do), then run `require_valid_subdomain`. -/
def subdomain_endpoint_response (db : Db) (sub : Option String) : Option HttpError :=
  let pract := match sub with
    | some s => if s.data.isEmpty then none else get_practitioner_by_subdomain db s
    | none => none
  require_valid_subdomain sub pract

/-! ## Transaction structure (for the atomicity of paired writes)

A repository method is a straight-line session program: a list of writes
with explicit `session.commit()` marks.  `runTx` executes it: writes act on
the session's pending view, a commit publishes the pending view, and an
exception raised before step `k` (the `fp` oracle) abandons the rest —
closing the session then rolls uncommitted pending changes back, so the
result is the last committed view. -/

/-- One step of a session program. -/
inductive TxStep where
  | write (f : Db → Db)
  | commit

/-- Run a session program from a committed and a pending view; `fp = some k`
raises an exception before the `k`-th remaining step. -/
def runTx (committed pending : Db) (fp : Option Nat) : List TxStep → Db
  | [] => committed
  | step :: rest =>
    match fp with
    | some 0 => committed
    | _ =>
      match step with
      | .write f => runTx committed (f pending) (fp.map (fun n => n - 1)) rest
      | .commit => runTx pending pending (fp.map (fun n => n - 1)) rest

/-- `create_otp` as a session program: invalidate, insert, one commit. -/
def create_otp_program (phone otp : String) (now : Nat) : List TxStep :=
  [.write (invalidate_prior_otps phone), .write (insert_new_otp phone otp now), .commit]

/-- `create_otp` under the exception oracle `fp`. -/
def create_otp_tx (db : Db) (phone otp : String) (now : Nat) (fp : Option Nat) : Db :=
  runTx db db fp (create_otp_program phone otp now)

/-- `save_basic_info` as a session program: row upsert, practitioner
update, one commit. -/
def save_basic_info_program (pid : Nat) (d : BasicInfoPayload) : List TxStep :=
  [.write (upsert_basic_info pid d), .write (update_practitioner_basic pid d), .commit]

/-- `save_basic_info` under the exception oracle `fp`. -/
def save_basic_info_tx (db : Db) (pid : Nat) (d : BasicInfoPayload) (fp : Option Nat) : Db :=
  runTx db db fp (save_basic_info_program pid d)

/-! ## Concrete sample stores used by witnesses and counterexamples -/

/-- A returning, fully onboarded practitioner whose first CRM login was
already recorded. -/
def returningPractitioner : Practitioner :=
  { id := 1, phone_number := "+10000000001", name := some "Amy", email := none
    onboarding_step := 6, is_active := true, crm_onboarding_completed := true
    crm_first_login_date := some 0, crm_onboarding_completed_date := some 0
    subdomain := none, website_published := false }

/-- A live (unverified, unexpired at tick 20) OTP row for that phone. -/
def liveOtpRow : PhoneOTP :=
  { id := 1, phone_number := "+10000000001", otp := "482913"
    otp_type := "verification", expires_at := 20, is_verified := false }

/-- Store with the returning practitioner and their live code. -/
def c1Store : Db :=
  { emptyDb with
      practitioners := [returningPractitioner]
      phone_otps := [liveOtpRow]
      next_practitioner_id := 2
      next_otp_id := 2 }

/-- A practitioner who has completed exactly steps 1–4. -/
def step4Practitioner : Practitioner :=
  { returningPractitioner with
      onboarding_step := 4
      crm_onboarding_completed := false
      crm_onboarding_completed_date := none }

/-- Store with only the step-4 practitioner. -/
def step4Store : Db :=
  { emptyDb with practitioners := [step4Practitioner], next_practitioner_id := 2 }

/-- A freshly created practitioner: step 0, nothing saved yet. -/
def step0Practitioner : Practitioner :=
  { returningPractitioner with
      onboarding_step := 0
      crm_onboarding_completed := false
      crm_first_login_date := none
      crm_onboarding_completed_date := none }

/-- Store with only the step-0 practitioner. -/
def step0Store : Db :=
  { emptyDb with practitioners := [step0Practitioner], next_practitioner_id := 2 }

/-- A practitioner with a published, active website. -/
def publishedPractitioner : Practitioner :=
  { returningPractitioner with
      id := 3
      phone_number := "+30000000003"
      subdomain := some "yoga-with-amy"
      website_published := true }

/-- A practitioner whose subdomain exists but is not published. -/
def unpublishedPractitioner : Practitioner :=
  { returningPractitioner with
      id := 4
      phone_number := "+40000000004"
      subdomain := some "quiet-site"
      website_published := false }

/-- Store for the tenant-resolution witness. -/
def tenantStore : Db :=
  { emptyDb with
      practitioners := [publishedPractitioner, unpublishedPractitioner]
      next_practitioner_id := 5 }

/-- Sample validated step-1 payload. -/
def sampleBasicInfo : BasicInfoPayload :=
  { first_name := "Amy", last_name := "Lee", email := "amy@example.com", location := "Pune" }

/-- Sample step-2 payload. -/
def sampleVisual : VisualProfilePayload := { banner_urls := [], profile_url := none }

/-- Sample step-3 payload. -/
def sampleProfessional : ProfessionalDetailsPayload :=
  { languages := [], teaching_styles := [], specializations := [] }

/-- Sample step-4 payload. -/
def sampleBio : BioAboutPayload := { short_bio := none, detailed_intro := none }

/-! ## General lemmas about the embedding primitives -/

theorem updateFirst_congr {α : Type} (p q : α → Bool) (f : α → α) :
    ∀ l : List α, (∀ a ∈ l, p a = q a) → updateFirst p f l = updateFirst q f l := by
  intro l
  induction l with
  | nil => intro _; rfl
  | cons x xs ih =>
    intro h
    have hx : p x = q x := h x (List.mem_cons_self x xs)
    have ht : updateFirst p f xs = updateFirst q f xs :=
      ih fun a ha => h a (List.mem_cons_of_mem x ha)
    simp only [updateFirst, hx, ht]

theorem find?_congr {α : Type} (p q : α → Bool) :
    ∀ l : List α, (∀ a ∈ l, p a = q a) → l.find? p = l.find? q := by
  intro l
  induction l with
  | nil => intro _; rfl
  | cons x xs ih =>
    intro h
    have hx : p x = q x := h x (List.mem_cons_self x xs)
    have ht := ih fun a ha => h a (List.mem_cons_of_mem x ha)
    cases hqx : q x with
    | true => simp [List.find?_cons, hx, hqx]
    | false => simp [List.find?_cons, hx, hqx, ht]

theorem find?_updateFirst {α : Type} (p : α → Bool) (f : α → α)
    (hf : ∀ a, p a = true → p (f a) = true) :
    ∀ l : List α, (updateFirst p f l).find? p = (l.find? p).map f := by
  intro l
  induction l with
  | nil => rfl
  | cons x xs ih =>
    cases hx : p x with
    | true =>
      simp only [updateFirst, hx, if_true]
      simp [List.find?_cons, hf x hx, hx]
    | false =>
      simp only [updateFirst, hx]
      simp [List.find?_cons, hx, ih]

/-! ## Lemmas about the OTP store -/

theorem consumeIfUnverified_phone (phone : String) (r : PhoneOTP) :
    (consumeIfUnverified phone r).phone_number = r.phone_number := by
  unfold consumeIfUnverified markVerified
  split <;> rfl

theorem consumeIfUnverified_otp (phone : String) (r : PhoneOTP) :
    (consumeIfUnverified phone r).otp = r.otp := by
  unfold consumeIfUnverified markVerified
  split <;> rfl

theorem consumeIfUnverified_verified (phone : String) (r : PhoneOTP)
    (h : (r.phone_number == phone) = true) :
    (consumeIfUnverified phone r).is_verified = true := by
  unfold consumeIfUnverified markVerified
  cases hv : r.is_verified with
  | true => simp [h, hv]
  | false => simp [h, hv]

theorem invalidated_find?_none (phone c : String) (now : Nat) (l : List PhoneOTP) :
    (l.map (consumeIfUnverified phone)).find? (otpMatches phone c now) = none := by
  rw [List.find?_eq_none]
  intro x hx
  rw [List.mem_map] at hx
  obtain ⟨r, _, rfl⟩ := hx
  intro hm
  simp only [otpMatches, Bool.and_eq_true] at hm
  obtain ⟨⟨⟨hphone, _⟩, hunv⟩, _⟩ := hm
  rw [consumeIfUnverified_phone] at hphone
  have hv := consumeIfUnverified_verified phone r hphone
  rw [hv] at hunv
  simp at hunv

theorem filter_unverified_map_consume (phone q : String) (hq : ¬q = phone) :
    ∀ l : List PhoneOTP,
      (l.map (consumeIfUnverified phone)).filter
          (fun r => r.phone_number == q && !r.is_verified)
        = l.filter (fun r => r.phone_number == q && !r.is_verified) := by
  intro l
  induction l with
  | nil => rfl
  | cons r rs ih =>
    simp only [List.map_cons, List.filter_cons]
    by_cases hp : r.phone_number = phone
    · have h1 : (r.phone_number == q) = false := by
        rw [hp]; exact beq_eq_false_iff_ne.mpr fun e => hq e.symm
      have h2 : ((consumeIfUnverified phone r).phone_number == q) = false := by
        rw [consumeIfUnverified_phone]; exact h1
      simp [h1, h2, ih]
    · have hr : consumeIfUnverified phone r = r := by
        unfold consumeIfUnverified
        have : (r.phone_number == phone) = false := beq_eq_false_iff_ne.mpr hp
        simp [this]
      rw [hr, ih]

theorem filter_unverified_map_consume_self (phone : String) (l : List PhoneOTP) :
    (l.map (consumeIfUnverified phone)).filter
        (fun r => r.phone_number == phone && !r.is_verified) = [] := by
  rw [List.filter_eq_nil_iff]
  intro x hx
  rw [List.mem_map] at hx
  obtain ⟨r, _, rfl⟩ := hx
  intro hm
  simp only [Bool.and_eq_true] at hm
  obtain ⟨hphone, hunv⟩ := hm
  rw [consumeIfUnverified_phone] at hphone
  have hv := consumeIfUnverified_verified phone r hphone
  rw [hv] at hunv
  simp at hunv

theorem filter_updateFirst_mark_length (m : PhoneOTP → Bool) (q : String) :
    ∀ l : List PhoneOTP,
      ((updateFirst m markVerified l).filter
          (fun r => r.phone_number == q && !r.is_verified)).length
        ≤ (l.filter (fun r => r.phone_number == q && !r.is_verified)).length := by
  intro l
  induction l with
  | nil => simp [updateFirst]
  | cons r rs ih =>
    cases hm : m r with
    | true =>
      simp only [updateFirst, hm, if_true, List.filter_cons]
      have hmk : ((markVerified r).phone_number == q && !(markVerified r).is_verified) = false := by
        simp [markVerified]
      rw [hmk]
      simp only [Bool.false_eq_true, if_false]
      cases hr : (r.phone_number == q && !r.is_verified) <;> simp [Nat.le_succ_of_le]
    | false =>
      have hu : updateFirst m markVerified (r :: rs) = r :: updateFirst m markVerified rs := by
        simp [updateFirst, hm]
      rw [hu]
      cases hr : (r.phone_number == q && !r.is_verified) with
      | true =>
        simp only [List.filter_cons, hr, if_true, List.length_cons]
        exact Nat.succ_le_succ ih
      | false =>
        simp only [List.filter_cons, hr]
        simpa using ih

theorem verify_otps_shape (db : Db) (phone otp : String) (now : Nat) :
    (verify_otp_and_get_user_status db phone otp now).1.phone_otps = db.phone_otps
    ∨ (verify_otp_and_get_user_status db phone otp now).1.phone_otps
        = updateFirst (otpMatches phone otp now) markVerified db.phone_otps := by
  unfold verify_otp_and_get_user_status
  cases h1 : db.phone_otps.find? (otpMatches phone otp now) with
  | none => exact Or.inl rfl
  | some r0 =>
    dsimp only []
    cases h2 : findPractByPhone
        { db with phone_otps := updateFirst (otpMatches phone otp now) markVerified db.phone_otps }
        phone with
    | none => exact Or.inr rfl
    | some pr =>
      by_cases h3 : pr.crm_first_login_date = none
      · simp only [h2, h3, if_pos]
        exact Or.inr trivial
      · simp only [h2, h3, if_neg, not_false_iff]
        exact Or.inl trivial

/-- C2: issuing a new OTP invalidates every prior unverified code for the
phone before storing the new one, leaves exactly one unverified code for
that phone (and other phones untouched), and verifying a superseded code
afterwards fails; OTP verification itself never increases the number of
unverified codes, so at most one unverified code per phone persists across
the store's operations. -/
theorem c2_create_otp_supersedes (db : Db) (phone otp : String) (now : Nat) :
    (∀ r ∈ (create_otp db phone otp now).1.phone_otps,
        r.phone_number = phone → r.is_verified = true ∨ r = newOtpRow db phone otp now)
    ∧ unverifiedOtps (create_otp db phone otp now).1 phone = [newOtpRow db phone otp now]
    ∧ (unverifiedOtps (create_otp db phone otp now).1 phone).length ≤ 1
    ∧ (∀ q : String, ¬q = phone →
        unverifiedOtps (create_otp db phone otp now).1 q = unverifiedOtps db q)
    ∧ (∀ (c : String) (now2 : Nat), ¬c = otp →
        (verify_otp_and_get_user_status (create_otp db phone otp now).1 phone c now2).2
          = VerifyResult.failure "Invalid or expired OTP")
    ∧ (∀ (p2 c : String) (n2 : Nat) (q : String),
        (unverifiedOtps (verify_otp_and_get_user_status db p2 c n2).1 q).length
          ≤ (unverifiedOtps db q).length) := by
  have hotps : (create_otp db phone otp now).1.phone_otps
      = db.phone_otps.map (consumeIfUnverified phone) ++ [newOtpRow db phone otp now] := rfl
  have hnew : (newOtpRow db phone otp now).phone_number = phone := rfl
  refine ⟨?_, ?_, ?_, ?_, ?_, ?_⟩
  · intro r hr hphone
    rw [hotps] at hr
    rcases List.mem_append.mp hr with hmap | hone
    · left
      rw [List.mem_map] at hmap
      obtain ⟨s, _, rfl⟩ := hmap
      apply consumeIfUnverified_verified
      rw [consumeIfUnverified_phone] at hphone
      exact beq_iff_eq.mpr hphone
    · right
      simpa using hone
  · unfold unverifiedOtps
    rw [hotps, List.filter_append, filter_unverified_map_consume_self]
    simp [newOtpRow]
  · unfold unverifiedOtps
    rw [hotps, List.filter_append, filter_unverified_map_consume_self]
    simp [newOtpRow]
  · intro q hq
    unfold unverifiedOtps
    rw [hotps, List.filter_append, filter_unverified_map_consume phone q hq]
    have : ((newOtpRow db phone otp now).phone_number == q
        && !(newOtpRow db phone otp now).is_verified) = false := by
      rw [hnew]
      have : (phone == q) = false := beq_eq_false_iff_ne.mpr fun e => hq e.symm
      simp [this]
    simp [this]
  · intro c now2 hc
    have hfind : ((create_otp db phone otp now).1.phone_otps).find?
        (otpMatches phone c now2) = none := by
      rw [hotps, List.find?_append, invalidated_find?_none]
      have : otpMatches phone c now2 (newOtpRow db phone otp now) = false := by
        have hco : ((newOtpRow db phone otp now).otp == c) = false :=
          beq_eq_false_iff_ne.mpr fun e => hc (e.symm)
        simp only [otpMatches]
        rw [hco]
        simp
      simp [List.find?_cons, this]
    unfold verify_otp_and_get_user_status
    rw [hfind]
  · intro p2 c n2 q
    rcases verify_otps_shape db p2 c n2 with hs | hs
    · unfold unverifiedOtps
      rw [hs]
    · unfold unverifiedOtps
      rw [hs]
      exact filter_updateFirst_mark_length _ q db.phone_otps

/-- C1: at the failing input (a returning practitioner whose
`crm_first_login_date` is already set), OTP verification succeeds but the
store is returned unchanged — the `is_verified` mark is rolled back with
the session — so a second verification with the very same code succeeds
again, contradicting the single-use half of the claim. -/
theorem c1_otp_reusable_at_failing_input :
    (verify_otp_and_get_user_status c1Store "+10000000001" "482913" 5).1 = c1Store
    ∧ (verify_otp_and_get_user_status c1Store "+10000000001" "482913" 5).2
        = VerifyResult.success 1 false false 6 true
    ∧ (verify_otp_and_get_user_status
          (verify_otp_and_get_user_status c1Store "+10000000001" "482913" 5).1
          "+10000000001" "482913" 6).2
        = VerifyResult.success 1 false false 6 true := by
  refine ⟨?_, ?_, ?_⟩ <;> decide

/-- C2 witness: concrete instantiation — issuing `111111` for the phone of
`c1Store` leaves exactly the new row unverified, and the superseded code
`482913` no longer verifies. -/
theorem c2_witness :
    unverifiedOtps (create_otp c1Store "+10000000001" "111111" 3).1 "+10000000001"
      = [newOtpRow c1Store "+10000000001" "111111" 3]
    ∧ (verify_otp_and_get_user_status (create_otp c1Store "+10000000001" "111111" 3).1
        "+10000000001" "482913" 5).2 = VerifyResult.failure "Invalid or expired OTP" :=
  ⟨(c2_create_otp_supersedes c1Store "+10000000001" "111111" 3).2.1,
   (c2_create_otp_supersedes c1Store "+10000000001" "111111" 3).2.2.2.2.1
     "482913" 5 (by decide)⟩

/-! ## Lemmas about the onboarding state machine -/

theorem findPractById_updateFirst (l : List Practitioner) (pid : Nat)
    (f : Practitioner → Practitioner) (hf : ∀ p, (f p).id = p.id) :
    (updateFirst (fun p => p.id == pid) f l).find? (fun p => p.id == pid)
      = (l.find? (fun p => p.id == pid)).map f := by
  apply find?_updateFirst
  intro a ha
  rw [hf a]
  exact ha

theorem ite_lt_eq_max (a n : Nat) : (if a < n then n else a) = max a n := by
  by_cases h : a < n
  · simp [h, Nat.max_eq_right (Nat.le_of_lt h)]
  · simp [h, Nat.max_eq_left (Nat.le_of_not_lt h)]

theorem current_step_of_find (db : Db) (pid : Nat) (p : Practitioner)
    (hp : findPractById db pid = some p) :
    get_onboarding_current_step db pid = some p.onboarding_step := by
  unfold get_onboarding_current_step
  rw [hp]
  rfl

/-- C3: steps 2–5 are rejected with the sequence error and leave the store
untouched whenever the practitioner's current step is below `n - 1`, while
step 1 is accepted with no precondition on prior steps. -/
theorem c3_step_order_enforced (db : Db) (fid : Nat) (p : Practitioner)
    (d1 : BasicInfoPayload) (d2 : VisualProfilePayload) (d3 : ProfessionalDetailsPayload)
    (d4 : BioAboutPayload) (exps : List WorkExperiencePayload)
    (certs : List CertificationPayload) (phone : String) (now : Nat)
    (hp : findPractById db fid = some p) :
    (p.onboarding_step < 1 →
      onboarding_step2_visual_profile db fid d2
        = (db, StepResponse.err 400 "Please complete previous steps first"))
    ∧ (p.onboarding_step < 2 →
      onboarding_step3_professional_details db fid d3
        = (db, StepResponse.err 400 "Please complete previous steps first"))
    ∧ (p.onboarding_step < 3 →
      onboarding_step4_bio_about db fid d4
        = (db, StepResponse.err 400 "Please complete previous steps first"))
    ∧ (p.onboarding_step < 4 →
      onboarding_step5_experience_certifications db fid phone exps certs now
        = (db, StepResponse.err 400 "Please complete previous steps first"))
    ∧ (onboarding_step1_basic_info db fid d1).2 = StepResponse.ok 1 2 5 := by
  have hcs := current_step_of_find db fid p hp
  refine ⟨?_, ?_, ?_, ?_, rfl⟩
  · intro h
    unfold onboarding_step2_visual_profile
    rw [hcs]
    simp [h]
  · intro h
    unfold onboarding_step3_professional_details
    rw [hcs]
    simp [h]
  · intro h
    unfold onboarding_step4_bio_about
    rw [hcs]
    simp [h]
  · intro h
    unfold onboarding_step5_experience_certifications
    rw [hcs]
    simp [h]

/-- C3 witness: a practitioner at step 0 has step 3 rejected with the
sequence error and the store unchanged, while step 1 succeeds. -/
theorem c3_witness :
    onboarding_step3_professional_details step0Store 1 sampleProfessional
      = (step0Store, StepResponse.err 400 "Please complete previous steps first")
    ∧ (onboarding_step1_basic_info step0Store 1 sampleBasicInfo).2 = StepResponse.ok 1 2 5 :=
  ⟨(c3_step_order_enforced step0Store 1 step0Practitioner sampleBasicInfo sampleVisual
      sampleProfessional sampleBio [] [] "+10000000001" 0 (by decide)).2.1 (by decide),
   (c3_step_order_enforced step0Store 1 step0Practitioner sampleBasicInfo sampleVisual
      sampleProfessional sampleBio [] [] "+10000000001" 0 (by decide)).2.2.2.2⟩

/-- C4 counterexample: for the step-4 practitioner, a successful step-5
save stores `onboarding_step = 6`, which is neither `max 4 5` nor within
the claimed 0–5 range. -/
theorem c4_step5_sets_six :
    (findPractById (save_experience_certifications step4Store 1 [] [] 0).1 1).map
        (fun p => p.onboarding_step) = some 6
    ∧ ¬(6 : Nat) = max 4 5
    ∧ ¬(6 : Nat) ≤ 5 := by
  refine ⟨by decide, by decide, by decide⟩

/-- C4 amended: a successful save of step `n` for `n` in 1–4 sets
`onboarding_step` to `max(previous, n)`; the step-5 save sets it to 6
unconditionally.  Hence the counter stays in the range 0–6 and never
decreases from any reachable value (`previous ≤ 6`). -/
theorem c4_amended_step_counter (db : Db) (pid : Nat) (p : Practitioner)
    (d1 : BasicInfoPayload) (d2 : VisualProfilePayload) (d3 : ProfessionalDetailsPayload)
    (d4 : BioAboutPayload) (exps : List WorkExperiencePayload)
    (certs : List CertificationPayload) (now : Nat)
    (hp : findPractById db pid = some p) :
    get_onboarding_current_step (save_basic_info db pid d1).1 pid
        = some (max p.onboarding_step 1)
    ∧ get_onboarding_current_step (save_visual_profile db pid d2).1 pid
        = some (max p.onboarding_step 2)
    ∧ get_onboarding_current_step (save_professional_details db pid d3).1 pid
        = some (max p.onboarding_step 3)
    ∧ get_onboarding_current_step (save_bio_about db pid d4).1 pid
        = some (max p.onboarding_step 4)
    ∧ get_onboarding_current_step (save_experience_certifications db pid exps certs now).1 pid
        = some 6
    ∧ (p.onboarding_step ≤ 6 →
        (p.onboarding_step ≤ max p.onboarding_step 1 ∧ max p.onboarding_step 1 ≤ 6)
        ∧ (p.onboarding_step ≤ max p.onboarding_step 2 ∧ max p.onboarding_step 2 ≤ 6)
        ∧ (p.onboarding_step ≤ max p.onboarding_step 3 ∧ max p.onboarding_step 3 ≤ 6)
        ∧ (p.onboarding_step ≤ max p.onboarding_step 4 ∧ max p.onboarding_step 4 ≤ 6)
        ∧ p.onboarding_step ≤ 6) := by
  have h1 : findPractById (save_basic_info db pid d1).1 pid
      = (findPractById db pid).map (bumpBasic d1) :=
    findPractById_updateFirst db.practitioners pid (bumpBasic d1) (fun _ => rfl)
  have h2 : findPractById (save_visual_profile db pid d2).1 pid
      = (findPractById db pid).map (bumpStep 2) :=
    findPractById_updateFirst db.practitioners pid (bumpStep 2) (fun _ => rfl)
  have h3 : findPractById (save_professional_details db pid d3).1 pid
      = (findPractById db pid).map (bumpStep 3) :=
    findPractById_updateFirst db.practitioners pid (bumpStep 3) (fun _ => rfl)
  have h4 : findPractById (save_bio_about db pid d4).1 pid
      = (findPractById db pid).map (bumpStep 4) :=
    findPractById_updateFirst db.practitioners pid (bumpStep 4) (fun _ => rfl)
  have h5 : findPractById (save_experience_certifications db pid exps certs now).1 pid
      = (findPractById db pid).map (completeOnboarding now) :=
    findPractById_updateFirst db.practitioners pid (completeOnboarding now) (fun _ => rfl)
  refine ⟨?_, ?_, ?_, ?_, ?_, ?_⟩
  · unfold get_onboarding_current_step
    rw [h1, hp]
    show some (if p.onboarding_step < 1 then 1 else p.onboarding_step)
      = some (max p.onboarding_step 1)
    rw [ite_lt_eq_max]
  · unfold get_onboarding_current_step
    rw [h2, hp]
    show some (if p.onboarding_step < 2 then 2 else p.onboarding_step)
      = some (max p.onboarding_step 2)
    rw [ite_lt_eq_max]
  · unfold get_onboarding_current_step
    rw [h3, hp]
    show some (if p.onboarding_step < 3 then 3 else p.onboarding_step)
      = some (max p.onboarding_step 3)
    rw [ite_lt_eq_max]
  · unfold get_onboarding_current_step
    rw [h4, hp]
    show some (if p.onboarding_step < 4 then 4 else p.onboarding_step)
      = some (max p.onboarding_step 4)
    rw [ite_lt_eq_max]
  · unfold get_onboarding_current_step
    rw [h5, hp]
    rfl
  · intro hle
    omega

/-- C4 amended witness: the step-4 practitioner — step 2 re-save keeps the
counter at 4, and the step-5 save stores 6. -/
theorem c4_amended_witness :
    get_onboarding_current_step (save_visual_profile step4Store 1 sampleVisual).1 1
        = some (max 4 2)
    ∧ get_onboarding_current_step
        (save_experience_certifications step4Store 1 [] [] 0).1 1 = some 6 :=
  ⟨(c4_amended_step_counter step4Store 1 step4Practitioner sampleBasicInfo sampleVisual
      sampleProfessional sampleBio [] [] 0 (by decide)).2.1,
   (c4_amended_step_counter step4Store 1 step4Practitioner sampleBasicInfo sampleVisual
      sampleProfessional sampleBio [] [] 0 (by decide)).2.2.2.2.1⟩

/-! ## Lemmas for the completed-onboarding verification flow -/

theorem find_new_otp_after_create (db : Db) (phone code : String) (now2 now3 : Nat)
    (hexp : now3 < now2 + otpTtl) :
    (create_otp db phone code now2).1.phone_otps.find? (otpMatches phone code now3)
      = some (newOtpRow db phone code now2) := by
  have hotps : (create_otp db phone code now2).1.phone_otps
      = db.phone_otps.map (consumeIfUnverified phone) ++ [newOtpRow db phone code now2] := rfl
  rw [hotps, List.find?_append, invalidated_find?_none]
  have hm : otpMatches phone code now3 (newOtpRow db phone code now2) = true := by
    simp [otpMatches, newOtpRow, hexp]
  simp [List.find?_cons, hm]

theorem verify_after_create_found (db : Db) (phone code : String) (now2 now3 : Nat)
    (hexp : now3 < now2 + otpTtl) (pr : Practitioner)
    (hbp : findPractByPhone db phone = some pr) :
    (verify_otp_and_get_user_status (create_otp db phone code now2).1 phone code now3).2
      = VerifyResult.success pr.id false (!pr.crm_onboarding_completed)
          pr.onboarding_step pr.crm_onboarding_completed := by
  unfold verify_otp_and_get_user_status
  rw [find_new_otp_after_create db phone code now2 now3 hexp]
  dsimp only
  split
  · next x heq =>
    have hcontra : some pr = (none : Option Practitioner) := hbp.symm.trans heq
    exact absurd hcontra (by simp)
  · next x pr2 heq =>
    have hpr2 : some pr = some pr2 := hbp.symm.trans heq
    have hsame : pr2 = pr := (Option.some.inj hpr2).symm
    subst hsame
    split <;> rfl

theorem verify_route_after_create_completed (db : Db) (phone code : String)
    (now2 now3 : Nat) (pr : Practitioner)
    (hvp : validate_phone_number phone = true) (hvo : otp_format_ok code = true)
    (hexp : now3 < now2 + otpTtl)
    (hbp : findPractByPhone db phone = some pr)
    (hcomp : pr.crm_onboarding_completed = true) :
    (verify_otp_route (create_otp db phone code now2).1 phone code now3).2
      = VerifyOtpResponse.dashboard (generate_auth_token pr.id phone now3) "auth" "dashboard" := by
  unfold verify_otp_route
  rw [hvp, hvo]
  dsimp only
  rw [verify_after_create_found db phone code now2 now3 hexp pr hbp]
  rw [hcomp]
  rfl

/-- C5: with the step-4 precondition satisfied, the step-5 route marks
`crm_onboarding_completed`, answers with an auth token and the dashboard
redirect, and a later OTP verification for that phone takes the completed
branch: an auth token with redirect "dashboard". -/
theorem c5_step5_completes_then_dashboard (db : Db) (fid : Nat) (p : Practitioner)
    (phone code : String) (exps : List WorkExperiencePayload)
    (certs : List CertificationPayload) (now now2 now3 : Nat)
    (hp : findPractById db fid = some p)
    (hu : ∀ q ∈ db.practitioners, (q.id == fid) = (q.phone_number == phone))
    (hs : 4 ≤ p.onboarding_step)
    (hvp : validate_phone_number phone = true)
    (hvo : otp_format_ok code = true)
    (hexp : now3 < now2 + otpTtl) :
    (onboarding_step5_experience_certifications db fid phone exps certs now).2
        = StepResponse.okComplete 5 5 (generate_auth_token fid phone now) "auth" "dashboard"
    ∧ (findPractById
          (onboarding_step5_experience_certifications db fid phone exps certs now).1 fid).map
        (fun q => q.crm_onboarding_completed) = some true
    ∧ (verify_otp_route
          (create_otp
            (onboarding_step5_experience_certifications db fid phone exps certs now).1
            phone code now2).1
          phone code now3).2
        = VerifyOtpResponse.dashboard (generate_auth_token fid phone now3) "auth" "dashboard" := by
  have hcs := current_step_of_find db fid p hp
  have hnotlt : ¬(p.onboarding_step < 4) := Nat.not_lt.mpr hs
  have hroute : onboarding_step5_experience_certifications db fid phone exps certs now
      = ((save_experience_certifications db fid exps certs now).1,
         StepResponse.okComplete 5 5 (generate_auth_token fid phone now) "auth" "dashboard") := by
    unfold onboarding_step5_experience_certifications
    rw [hcs]
    simp [hnotlt]
    rfl
  have hfind5 : findPractById (save_experience_certifications db fid exps certs now).1 fid
      = some (completeOnboarding now p) := by
    have := findPractById_updateFirst db.practitioners fid (completeOnboarding now)
      (fun _ => rfl)
    have h2 : findPractById (save_experience_certifications db fid exps certs now).1 fid
        = (findPractById db fid).map (completeOnboarding now) := this
    rw [h2, hp]
    rfl
  have hbp : findPractByPhone (save_experience_certifications db fid exps certs now).1 phone
      = some (completeOnboarding now p) := by
    have hpmem : p ∈ db.practitioners := List.mem_of_find?_eq_some hp
    have hu2 : ∀ q ∈ db.practitioners, (q.phone_number == phone) = (q.id == fid) :=
      fun q hq => (hu q hq).symm
    show (updateFirst (fun q => q.id == fid) (completeOnboarding now)
        db.practitioners).find? (fun q => q.phone_number == phone)
      = some (completeOnboarding now p)
    rw [updateFirst_congr (fun q => q.id == fid) (fun q => q.phone_number == phone)
      (completeOnboarding now) db.practitioners hu]
    rw [find?_updateFirst (fun q => q.phone_number == phone) (completeOnboarding now)
      (fun a ha => ha) db.practitioners]
    rw [find?_congr (fun q => q.phone_number == phone) (fun q => q.id == fid)
      db.practitioners hu2]
    rw [show db.practitioners.find? (fun q => q.id == fid) = some p from hp]
    rfl
  have hp2 : db.practitioners.find? (fun q => q.id == fid) = some p := hp
  have hpid : p.id = fid := by
    have h := List.find?_some hp2
    simpa using h
  refine ⟨?_, ?_, ?_⟩
  · rw [hroute]
  · rw [hroute]
    dsimp only
    rw [hfind5]
    rfl
  · rw [hroute]
    dsimp only
    have := verify_route_after_create_completed
      (save_experience_certifications db fid exps certs now).1 phone code now2 now3
      (completeOnboarding now p) hvp hvo hexp hbp rfl
    rw [this]
    show VerifyOtpResponse.dashboard (generate_auth_token p.id phone now3) "auth" "dashboard"
      = VerifyOtpResponse.dashboard (generate_auth_token fid phone now3) "auth" "dashboard"
    rw [hpid]

/-- C5 witness: the step-4 practitioner completes step 5, then a fresh
code issued and verified for the same phone yields the dashboard branch
with an auth token. -/
theorem c5_witness :
    (onboarding_step5_experience_certifications step4Store 1 "+10000000001" [] [] 0).2
      = StepResponse.okComplete 5 5 (generate_auth_token 1 "+10000000001" 0) "auth" "dashboard"
    ∧ (verify_otp_route
        (create_otp
          (onboarding_step5_experience_certifications step4Store 1 "+10000000001" [] [] 0).1
          "+10000000001" "111111" 1).1
        "+10000000001" "111111" 2).2
      = VerifyOtpResponse.dashboard (generate_auth_token 1 "+10000000001" 2) "auth" "dashboard" :=
  ⟨(c5_step5_completes_then_dashboard step4Store 1 step4Practitioner "+10000000001" "111111"
      [] [] 0 1 2 (by decide) (by decide) (by decide) (by decide) (by decide) (by decide)).1,
   (c5_step5_completes_then_dashboard step4Store 1 step4Practitioner "+10000000001" "111111"
      [] [] 0 1 2 (by decide) (by decide) (by decide) (by decide) (by decide) (by decide)).2.2⟩

/-- C6 counterexample: a well-formed auth-variant token presented to the
onboarding guard is rejected with a different body ("Invalid token type")
than an undecodable token ("Invalid token"), so the two rejections are not
identical. -/
theorem c6_wrong_variant_body_differs :
    onboarding_token_required (TokenInput.decoded (generate_auth_token 1 "+10000000001" 0))
      = GuardOutcome.reject 401 "Invalid token type" "Please verify OTP first"
    ∧ onboarding_token_required TokenInput.undecodable
      = GuardOutcome.reject 401 "Invalid token" "Please verify OTP again"
    ∧ onboarding_token_required (TokenInput.decoded (generate_auth_token 1 "+10000000001" 0))
      ≠ onboarding_token_required TokenInput.undecodable := by
  refine ⟨by decide, by decide, by decide⟩

/-- C6 amended: a decoded token with the wrong variant discriminant is
rejected with status 401 and the handler is never invoked, exactly as for
a token that fails to decode — but the two rejections carry different JSON
bodies ("Invalid token type" versus "Invalid token"). -/
theorem c6_amended_uniform_401 (p : JwtPayload) :
    ((p.type == some "auth" && p.is_authenticated.getD false) = false →
      token_required (TokenInput.decoded p)
        = GuardOutcome.reject 401 "Invalid token type" "Please login again")
    ∧ token_required TokenInput.undecodable
        = GuardOutcome.reject 401 "Invalid token" "Please login again"
    ∧ ((p.type == some "onboarding" && p.otp_verified.getD false) = false →
      onboarding_token_required (TokenInput.decoded p)
        = GuardOutcome.reject 401 "Invalid token type" "Please verify OTP first")
    ∧ onboarding_token_required TokenInput.undecodable
        = GuardOutcome.reject 401 "Invalid token" "Please verify OTP again" := by
  refine ⟨?_, rfl, ?_, rfl⟩
  · intro h
    unfold token_required
    have hc : (p.type != some "auth" || !(p.is_authenticated.getD false)) = true := by
      cases ha : (p.type == some "auth") <;> cases hb : p.is_authenticated.getD false <;>
        simp_all [bne]
    simp [hc]
  · intro h
    unfold onboarding_token_required
    have hc : (p.type != some "onboarding" || !(p.otp_verified.getD false)) = true := by
      cases ha : (p.type == some "onboarding") <;> cases hb : p.otp_verified.getD false <;>
        simp_all [bne]
    simp [hc]

/-- C6 amended witness: an onboarding token at the auth guard and an auth
token at the onboarding guard are both rejected with the 401 wrong-variant
body. -/
theorem c6_amended_witness :
    token_required (TokenInput.decoded (generate_temp_token "+10000000001" 1 0))
      = GuardOutcome.reject 401 "Invalid token type" "Please login again"
    ∧ onboarding_token_required (TokenInput.decoded (generate_auth_token 1 "+10000000001" 0))
      = GuardOutcome.reject 401 "Invalid token type" "Please verify OTP first" :=
  ⟨(c6_amended_uniform_401 (generate_temp_token "+10000000001" 1 0)).1 (by decide),
   (c6_amended_uniform_401 (generate_auth_token 1 "+10000000001" 0)).2.2.1 (by decide)⟩

/-- C7 counterexample: in the production branch the reserved list is
`www`, `api`, `facilitatorCRM` — so `admin.ahoum.com` resolves to the
tenant label `admin` instead of none. -/
theorem c7_admin_not_reserved_in_production :
    get_subdomain_from_host "admin.ahoum.com" = some "admin"
    ∧ get_subdomain_from_host "admin.ahoum.com" ≠ none := by
  refine ⟨by decide, by decide⟩

/-- C7 amended: after stripping any port, the reserved labels `www`,
`api`, `facilitatorCRM` under `.ahoum.com` (production) and `www`, `api`,
`admin` under `.localhost` (development) all resolve to none. -/
theorem c7_amended_reserved_labels (host : String)
    (h : hostWithoutPort host = "www.ahoum.com".data
      ∨ hostWithoutPort host = "api.ahoum.com".data
      ∨ hostWithoutPort host = "facilitatorCRM.ahoum.com".data
      ∨ hostWithoutPort host = "www.localhost".data
      ∨ hostWithoutPort host = "api.localhost".data
      ∨ hostWithoutPort host = "admin.localhost".data) :
    get_subdomain_from_host host = none := by
  unfold get_subdomain_from_host
  rcases h with h | h | h | h | h | h <;> rw [h] <;> decide

/-- C7 amended witness: a reserved production label with a port and the
development-only reserved label `admin` both resolve to none. -/
theorem c7_amended_witness :
    get_subdomain_from_host "www.ahoum.com:8080" = none
    ∧ get_subdomain_from_host "admin.localhost" = none :=
  ⟨c7_amended_reserved_labels "www.ahoum.com:8080" (by decide),
   c7_amended_reserved_labels "admin.localhost" (by decide)⟩

/-- C8: tenant lookup only ever returns a published, active practitioner
whose subdomain matches; when every row for the subdomain is unpublished
or inactive (or no row exists), the lookup is none and the dependent
endpoint sends the same generic 404 body as for a subdomain that never
existed, and likewise when no subdomain was resolved at all. -/
theorem c8_tenant_resolution_uniform (db : Db) (s : String) (p : Practitioner) :
    (get_practitioner_by_subdomain db s = some p →
      p.website_published = true ∧ p.is_active = true ∧ p ∈ db.practitioners
        ∧ p.subdomain = some s)
    ∧ ((∀ q ∈ db.practitioners, q.subdomain = some s →
          ¬(q.website_published = true ∧ q.is_active = true)) →
        get_practitioner_by_subdomain db s = none
        ∧ subdomain_endpoint_response db (some s) = some websiteNotFound
        ∧ subdomain_endpoint_response db (some s)
            = subdomain_endpoint_response emptyDb (some s))
    ∧ subdomain_endpoint_response db none = some websiteNotFound := by
  refine ⟨?_, ?_, rfl⟩
  · intro h
    have hmem : p ∈ db.practitioners := List.mem_of_find?_eq_some h
    have hpred := List.find?_some h
    simp only [Bool.and_eq_true, beq_iff_eq] at hpred
    exact ⟨hpred.1.2, hpred.2, hmem, hpred.1.1⟩
  · intro hq
    have hnone : get_practitioner_by_subdomain db s = none := by
      unfold get_practitioner_by_subdomain
      rw [List.find?_eq_none]
      intro x hx hpx
      simp only [Bool.and_eq_true, beq_iff_eq] at hpx
      exact hq x hx hpx.1.1 ⟨hpx.1.2, hpx.2⟩
    have hempty : subdomain_endpoint_response emptyDb (some s) = some websiteNotFound := by
      unfold subdomain_endpoint_response require_valid_subdomain
      cases hemp : s.data.isEmpty <;> simp [hemp, get_practitioner_by_subdomain, emptyDb]
    have hdb : subdomain_endpoint_response db (some s) = some websiteNotFound := by
      unfold subdomain_endpoint_response require_valid_subdomain
      cases hemp : s.data.isEmpty <;> simp [hemp, hnone]
    exact ⟨hnone, hdb, hdb.trans hempty.symm⟩

/-- C8 witness: the published practitioner is returned for its subdomain,
while the unpublished subdomain gets the same generic 404 as a subdomain
that never existed. -/
theorem c8_witness :
    (publishedPractitioner.website_published = true ∧ publishedPractitioner.is_active = true
      ∧ publishedPractitioner ∈ tenantStore.practitioners
      ∧ publishedPractitioner.subdomain = some "yoga-with-amy")
    ∧ subdomain_endpoint_response tenantStore (some "quiet-site") = some websiteNotFound
    ∧ subdomain_endpoint_response tenantStore (some "quiet-site")
        = subdomain_endpoint_response emptyDb (some "quiet-site") :=
  ⟨(c8_tenant_resolution_uniform tenantStore "yoga-with-amy" publishedPractitioner).1
      (by decide),
   ((c8_tenant_resolution_uniform tenantStore "quiet-site" publishedPractitioner).2.1
      (by decide)).2.1,
   ((c8_tenant_resolution_uniform tenantStore "quiet-site" publishedPractitioner).2.1
      (by decide)).2.2⟩

/-! ## Lemmas for atomicity -/

theorem any_updateFirst {α : Type} (p : α → Bool) (f : α → α)
    (hf : ∀ a, p a = true → p (f a) = true) :
    ∀ l : List α, l.any p = true → (updateFirst p f l).any p = true := by
  intro l
  induction l with
  | nil => intro h; exact h
  | cons x xs ih =>
    intro h
    cases hx : p x with
    | true =>
      simp only [updateFirst, hx, if_true]
      simp [hf x hx]
    | false =>
      simp only [updateFirst, hx]
      rw [List.any_cons, hx] at h
      simp only [Bool.false_or] at h
      simp [List.any_cons, hx, ih h]

/-- C9: each repository method is one session program with a single
trailing commit, so under any exception point the store is either exactly
the original or exactly the fully updated one — and the fully updated
store always carries both paired writes (invalidation together with the
new OTP row; the step record together with the practitioner counter
update). -/
theorem c9_session_writes_atomic (db : Db) (phone otp : String) (now : Nat)
    (pid : Nat) (d : BasicInfoPayload) (fp : Option Nat) :
    (create_otp_tx db phone otp now fp = db
      ∨ create_otp_tx db phone otp now fp = (create_otp db phone otp now).1)
    ∧ (save_basic_info_tx db pid d fp = db
      ∨ save_basic_info_tx db pid d fp = (save_basic_info db pid d).1)
    ∧ (create_otp db phone otp now).1.phone_otps
        = db.phone_otps.map (consumeIfUnverified phone) ++ [newOtpRow db phone otp now]
    ∧ (save_basic_info db pid d).1.basic_infos.any
        (fun r => r.practitioner_id == pid) = true
    ∧ (save_basic_info db pid d).1.practitioners
        = updateFirst (fun q => q.id == pid) (bumpBasic d) db.practitioners := by
  refine ⟨?_, ?_, rfl, ?_, rfl⟩
  · rcases fp with _ | k
    · right; rfl
    · rcases k with _ | _ | _ | n
      · left; rfl
      · left; rfl
      · left; rfl
      · right; rfl
  · rcases fp with _ | k
    · right; rfl
    · rcases k with _ | _ | _ | n
      · left; rfl
      · left; rfl
      · left; rfl
      · right; rfl
  · show (upsert_basic_info pid d db).basic_infos.any (fun r => r.practitioner_id == pid) = true
    unfold upsert_basic_info
    cases hex : db.basic_infos.any (fun r => r.practitioner_id == pid) with
    | true =>
      simp only [hex, if_true]
      exact any_updateFirst (fun r => r.practitioner_id == pid)
        (fun r => { r with
            first_name := d.first_name, last_name := d.last_name
            email := d.email, location := d.location })
        (fun a ha => ha) db.basic_infos hex
    | false =>
      simp only [hex]
      simp [List.any_append]

/-! ## Lemmas about decimal rendering -/

theorem natChars_zero (fuel : Nat) : natChars fuel 0 = [] := by
  cases fuel <;> rfl

theorem natChars_succ (f m : Nat) :
    natChars (f + 1) (m + 1)
      = natChars f ((m + 1) / 10) ++ [Char.ofNat ((m + 1) % 10 + 48)] := rfl

theorem natChars_length (k : Nat) :
    ∀ fuel n : Nat, n ≤ fuel → 10 ^ k ≤ n → n < 10 ^ (k + 1) →
      (natChars fuel n).length = k + 1 := by
  induction k with
  | zero =>
    intro fuel n hfuel hlo hhi
    norm_num at hlo hhi
    obtain ⟨m, rfl⟩ : ∃ m, n = m + 1 := ⟨n - 1, by omega⟩
    obtain ⟨f, rfl⟩ : ∃ f, fuel = f + 1 := ⟨fuel - 1, by omega⟩
    have hdiv : (m + 1) / 10 = 0 := Nat.div_eq_of_lt hhi
    rw [natChars_succ, hdiv, natChars_zero]
    rfl
  | succ k ih =>
    intro fuel n hfuel hlo hhi
    have h10 : (10 : Nat) ≤ 10 ^ (k + 1) := by
      calc (10 : Nat) = 10 ^ 1 := (pow_one 10).symm
      _ ≤ 10 ^ (k + 1) := Nat.pow_le_pow_right (by norm_num) (by omega)
    obtain ⟨m, rfl⟩ : ∃ m, n = m + 1 := ⟨n - 1, by omega⟩
    obtain ⟨f, rfl⟩ : ∃ f, fuel = f + 1 := ⟨fuel - 1, by omega⟩
    rw [natChars_succ, List.length_append]
    have hdivle : (m + 1) / 10 ≤ f := by
      have := Nat.div_lt_self (Nat.succ_pos m) (by norm_num : (1 : Nat) < 10)
      omega
    have hlo2 : 10 ^ k ≤ (m + 1) / 10 := by
      rw [Nat.le_div_iff_mul_le (by norm_num : (0 : Nat) < 10)]
      calc 10 ^ k * 10 = 10 ^ (k + 1) := (pow_succ 10 k).symm
      _ ≤ m + 1 := hlo
    have hhi2 : (m + 1) / 10 < 10 ^ (k + 1) := by
      rw [Nat.div_lt_iff_lt_mul (by norm_num : (0 : Nat) < 10)]
      calc m + 1 < 10 ^ (k + 1 + 1) := hhi
      _ = 10 ^ (k + 1) * 10 := pow_succ 10 (k + 1)
    rw [ih f ((m + 1) / 10) hdivle hlo2 hhi2]
    rfl

theorem digit_char_facts :
    ∀ d : Nat, d < 10 →
      (Char.ofNat (d + 48)).isDigit = true
      ∧ (1 ≤ d → ¬Char.ofNat (d + 48) = '0') := by decide

theorem natChars_all_digits :
    ∀ fuel n : Nat, (natChars fuel n).all Char.isDigit = true := by
  intro fuel
  induction fuel with
  | zero => intro n; cases n <;> rfl
  | succ f ih =>
    intro n
    cases n with
    | zero => rfl
    | succ m =>
      rw [natChars_succ, List.all_append, ih ((m + 1) / 10)]
      have hd : (m + 1) % 10 < 10 := Nat.mod_lt _ (by norm_num)
      simp [(digit_char_facts ((m + 1) % 10) hd).1]

theorem natChars_ne_nil (f m : Nat) : ¬natChars (f + 1) (m + 1) = [] := by
  rw [natChars_succ]
  simp

theorem natChars_head_ne_zero :
    ∀ fuel n : Nat, n ≤ fuel → 1 ≤ n →
      ∀ c, (natChars fuel n).head? = some c → ¬c = '0' := by
  intro fuel
  induction fuel with
  | zero => intro n hn h1; omega
  | succ f ih =>
    intro n hn h1 c hc
    obtain ⟨m, rfl⟩ : ∃ m, n = m + 1 := ⟨n - 1, by omega⟩
    rw [natChars_succ] at hc
    by_cases hdiv : (m + 1) / 10 = 0
    · rw [hdiv, natChars_zero] at hc
      simp only [List.nil_append, List.head?_cons, Option.some.injEq] at hc
      have hlt : m + 1 < 10 := by
        rcases Nat.lt_or_ge (m + 1) 10 with h | h
        · exact h
        · exact absurd (Nat.div_eq_of_lt (by omega)).symm (by
            rw [hdiv]
            omega)
      have hmod : (m + 1) % 10 = m + 1 := Nat.mod_eq_of_lt hlt
      rw [← hc, hmod]
      exact (digit_char_facts (m + 1) hlt).2 (by omega)
    · have hone : 1 ≤ (m + 1) / 10 := by omega
      have hle : (m + 1) / 10 ≤ f := by
        have := Nat.div_lt_self (Nat.succ_pos m) (by norm_num : (1 : Nat) < 10)
        omega
      obtain ⟨j, hj⟩ : ∃ j, (m + 1) / 10 = j + 1 := ⟨(m + 1) / 10 - 1, by omega⟩
      have hf : ∃ f2, f = f2 + 1 := ⟨f - 1, by omega⟩
      obtain ⟨f2, rfl⟩ := hf
      rw [hj] at hc
      have hne := natChars_ne_nil f2 j
      cases hng : natChars (f2 + 1) (j + 1) with
      | nil => exact absurd hng hne
      | cons a rest =>
        rw [hng] at hc
        simp only [List.cons_append, List.head?_cons, Option.some.injEq] at hc
        apply ih ((m + 1) / 10) hle hone c
        rw [hj, hng, hc]
        rfl

/-- C10: every code the generator can emit — `str` of a draw in
100000–999999 — is six decimal digits, starts with a nonzero digit, and
passes the verify endpoint's format precheck. -/
theorem c10_generate_otp_format (r : Nat) (hlo : 100000 ≤ r) (hhi : r ≤ 999999) :
    (generate_otp r).data.length = 6
    ∧ pyIsDigit (generate_otp r) = true
    ∧ (∀ c, (generate_otp r).data.head? = some c → ¬c = '0')
    ∧ otp_format_ok (generate_otp r) = true := by
  have hr0 : ¬r = 0 := by omega
  have hdata : (generate_otp r).data = natChars r r := by
    unfold generate_otp pyStrNat
    rw [if_neg hr0]
  have hlen : (natChars r r).length = 6 := by
    have h := natChars_length 5 r r (Nat.le_refl r)
      (by norm_num; omega) (by norm_num; omega)
    simpa using h
  have hall : (natChars r r).all Char.isDigit = true := natChars_all_digits r r
  have hne : ¬(natChars r r) = [] := by
    intro h
    rw [h] at hlen
    simp at hlen
  have hempty : (natChars r r).isEmpty = false := by
    cases hng : natChars r r with
    | nil => exact absurd hng hne
    | cons a l => rfl
  refine ⟨?_, ?_, ?_, ?_⟩
  · rw [hdata]
    exact hlen
  · unfold pyIsDigit
    rw [hdata, hall, hempty]
    rfl
  · intro c hc
    rw [hdata] at hc
    exact natChars_head_ne_zero r r (Nat.le_refl r) (by omega) c hc
  · unfold otp_format_ok pyIsDigit
    rw [hdata, hall, hempty, hlen]
    rfl

/-- C10 witness: the draw 482913 renders as six digits, passes the
precheck, and its leading digit is not zero. -/
theorem c10_witness :
    (generate_otp 482913).data.length = 6
    ∧ otp_format_ok (generate_otp 482913) = true
    ∧ ¬('4' : Char) = '0' :=
  ⟨(c10_generate_otp_format 482913 (by decide) (by decide)).1,
   (c10_generate_otp_format 482913 (by decide) (by decide)).2.2.2,
   (c10_generate_otp_format 482913 (by decide) (by decide)).2.2.1 '4' (by decide)⟩

end FacilitatorCRM
